import Mathlib

/-!
Shallow embedding of the tilesight hardware-abstraction core
(`tilelang/tools/tilesight/arch/base_arch.py` and the concrete device
variants in `arch/cuda/h100_pcie.py`, `arch/cuda/h100_sxm.py`,
`arch/rocm/mi250x.py`, plus the factory in `utils/device_factory.py`).

Python numbers are modelled exactly: Python ints as `Int`, Python floats
as `ℚ` (every literal in the source is a decimal literal, and all the
arithmetic is products, so exact rationals track the intended values).
Python attributes that exist only on some instances (set dynamically by
subclass methods, probed with `hasattr`) are modelled as `Option` fields
of one common state record, with `none` meaning "attribute absent or
`None`".  A method that raises is modelled as returning `none`.
-/

/-- One compute unit per SM (`ComputeUnit` in `base_arch.py`). -/
structure ComputeUnit where
  unit_type : String
  dtype : String
  instances : Int
  shape : List Int
  ops_per_element : Int
deriving DecidableEq

/-- `ComputeUnit.calculate_flops` from `base_arch.py` lines 30-55:
guard on non-positive `sm_count`/`freq_hz`, then
`instances * (prod shape, 1 if shape empty) * ops_per_element * sm_count * freq_hz`. -/
def ComputeUnit.calculate_flops (u : ComputeUnit) (sm_count : Int) (freq_hz : ℚ) : ℚ :=
  if sm_count ≤ 0 ∨ freq_hz ≤ 0 then 0
  else
    let shape_product : Int := if u.shape.isEmpty then 1 else u.shape.prod
    let ops_per_sm_per_cycle : Int := u.instances * shape_product * u.ops_per_element
    ((ops_per_sm_per_cycle * sm_count : Int) : ℚ) * freq_hz

/-- The full attribute state of an `Arch` object.  Fields of the base
class `Arch.__init__` are plain; attributes that only some subclasses
create dynamically (`fp8_tensor_core_unit`, `base_freq`, `max_freq`,
`warp_schedulers_per_sm`, `int8_flops`, ...) are `Option`s, `none` for
"absent".  The flops fields for the dynamically-probed units are plain
rationals starting at 0, since every state the claims inspect has run
`compute_flops` (whose `else` branches create them as `0.0`). -/
structure ArchState where
  core : Option String
  sm_count : Int
  freq : ℚ
  ddr_bandwidth : ℚ
  ddr_capacity : Int
  l2_bandwidth : ℚ
  l2_capacity : Int
  l2_partitions : Int
  sm_sub_partitions : Int
  l1_smem_throughput_per_cycle : Int
  configurable_smem_capacity : Int
  register_capacity_per_sm : Int
  fp16_tensor_core_unit : Option ComputeUnit
  fp32_cuda_core_unit : Option ComputeUnit
  sfu_unit : Option ComputeUnit
  fp8_tensor_core_unit : Option ComputeUnit
  fp4_tensor_core_unit : Option ComputeUnit
  fp16_cuda_core_unit : Option ComputeUnit
  fp64_cuda_core_unit : Option ComputeUnit
  int32_cuda_core_unit : Option ComputeUnit
  fp16_tensor_flops : ℚ
  fp32_cuda_core_flops : ℚ
  sfu_flops : ℚ
  fp8_tensor_flops : ℚ
  fp4_tensor_flops : ℚ
  fp16_cuda_core_flops : ℚ
  fp64_cuda_core_flops : ℚ
  int32_cuda_core_flops : ℚ
  smem_bandwidth : ℚ
  register_bandwidth : ℚ
  ddr_max_util : ℚ
  l2_max_util : ℚ
  l1_max_util : ℚ
  compute_max_util : ℚ
  base_freq : Option ℚ
  max_freq : Option ℚ
  warp_schedulers_per_sm : Option Int
  int8_flops : Option ℚ
deriving DecidableEq

/-- `Arch.__init__` (`base_arch.py` lines 60-98). -/
def initState : ArchState where
  core := none
  sm_count := 0
  freq := 0
  ddr_bandwidth := 0
  ddr_capacity := 0
  l2_bandwidth := 0
  l2_capacity := 0
  l2_partitions := 1
  sm_sub_partitions := 0
  l1_smem_throughput_per_cycle := 0
  configurable_smem_capacity := 0
  register_capacity_per_sm := 0
  fp16_tensor_core_unit := none
  fp32_cuda_core_unit := none
  sfu_unit := none
  fp8_tensor_core_unit := none
  fp4_tensor_core_unit := none
  fp16_cuda_core_unit := none
  fp64_cuda_core_unit := none
  int32_cuda_core_unit := none
  fp16_tensor_flops := 0
  fp32_cuda_core_flops := 0
  sfu_flops := 0
  fp8_tensor_flops := 0
  fp4_tensor_flops := 0
  fp16_cuda_core_flops := 0
  fp64_cuda_core_flops := 0
  int32_cuda_core_flops := 0
  smem_bandwidth := 0
  register_bandwidth := 0
  ddr_max_util := 9/10
  l2_max_util := 9/10
  l1_max_util := 9/10
  compute_max_util := 9/10
  base_freq := none
  max_freq := none
  warp_schedulers_per_sm := none
  int8_flops := none

/-- The guard pattern repeated for each unit slot in `Arch.compute_flops`:
`if self.<slot> and self.sm_count > 0 and self.freq > 0:` take
`calculate_flops`, `else` 0.0.  (`hasattr` false and attribute `None`
both fall to the `else` branch, i.e. both are `none` here.) -/
def slotFlops (u : Option ComputeUnit) (sm_count : Int) (freq : ℚ) : ℚ :=
  match u with
  | some cu => if 0 < sm_count ∧ 0 < freq then cu.calculate_flops sm_count freq else 0
  | none => 0

/-- `Arch.compute_flops` (`base_arch.py` lines 100-160).  The Python code
writes the eight flops fields one after the other; none of the inputs it
reads (unit slots, `sm_count`, `freq`) is among the fields it writes, so
a simultaneous record update is an exact model. -/
def computeFlops (s : ArchState) : ArchState :=
  { s with
    fp16_tensor_flops := slotFlops s.fp16_tensor_core_unit s.sm_count s.freq
    fp8_tensor_flops := slotFlops s.fp8_tensor_core_unit s.sm_count s.freq
    fp4_tensor_flops := slotFlops s.fp4_tensor_core_unit s.sm_count s.freq
    fp32_cuda_core_flops := slotFlops s.fp32_cuda_core_unit s.sm_count s.freq
    fp16_cuda_core_flops := slotFlops s.fp16_cuda_core_unit s.sm_count s.freq
    fp64_cuda_core_flops := slotFlops s.fp64_cuda_core_unit s.sm_count s.freq
    int32_cuda_core_flops := slotFlops s.int32_cuda_core_unit s.sm_count s.freq
    sfu_flops := slotFlops s.sfu_unit s.sm_count s.freq }

/-- `Arch.compute_bandwidth` (`base_arch.py` lines 162-180). -/
def computeBandwidth (s : ArchState) : ArchState :=
  { s with
    smem_bandwidth :=
      if 0 < s.sm_count ∧ 0 < s.freq ∧ 0 < s.l1_smem_throughput_per_cycle then
        (s.sm_count : ℚ) * s.freq * (s.l1_smem_throughput_per_cycle : ℚ)
      else 0
    register_bandwidth :=
      if 0 < s.sm_count ∧ 0 < s.freq ∧ 0 < s.sm_sub_partitions then
        (s.sm_count : ℚ) * s.freq * (s.sm_sub_partitions : ℚ) * 32 * 4
      else 0 }

/-- `Arch.compute_metrics` (`base_arch.py` lines 182-189): flops pass
then bandwidth pass, returning the instance. -/
def computeMetrics (s : ArchState) : ArchState :=
  computeBandwidth (computeFlops s)

/-- `H100_PCIE.set_to_spec` (`h100_pcie.py` lines 15-124).  Line 58 reads
`self.max_freq`, an attribute no prior line of `__init__`/`set_to_spec`
ever creates, so on a state without it the method raises
`AttributeError` (modelled as `none`).  Otherwise the net effect of the
straight-line assignments (line 22 writes `freq = 1.755e9` but line 58
overwrites it with `max_freq`; the derived fields zeroed in lines 43-47
are rewritten by `compute_metrics`), then `compute_metrics()`, then
`int8_flops = fp16_tensor_flops * 2`. -/
def h100_pcie_set_to_spec (s : ArchState) : Option ArchState :=
  match s.max_freq with
  | none => none
  | some mf =>
    let s1 : ArchState :=
      { s with
        core := some "H100_PCIE"
        sm_count := 114
        freq := mf
        ddr_bandwidth := 2039000000000
        ddr_capacity := 80 * 1024 ^ 3
        l2_bandwidth := 7598470000000
        l2_capacity := 50 * 1024 ^ 2
        l2_partitions := 2
        sm_sub_partitions := 4
        l1_smem_throughput_per_cycle := 128
        configurable_smem_capacity := 228 * 1024
        register_capacity_per_sm := 256 * 1024
        warp_schedulers_per_sm := some 4
        base_freq := some 1420000000
        fp16_tensor_core_unit := some ⟨"tensor", "fp16", 4, [8, 4, 16], 2⟩
        fp8_tensor_core_unit := some ⟨"tensor", "fp8", 4, [8, 4, 16], 2⟩
        fp32_cuda_core_unit := some ⟨"vector", "fp32", 128, [], 2⟩
        int32_cuda_core_unit := some ⟨"vector", "int32", 64, [], 2⟩
        fp16_cuda_core_unit := some ⟨"vector", "fp16", 128, [], 2⟩
        fp64_cuda_core_unit := some ⟨"vector", "fp64", 64, [], 2⟩
        sfu_unit := some ⟨"sfu", "fp32", 16, [], 2⟩
        ddr_max_util := 9/10
        l2_max_util := 9/10
        l1_max_util := 9/10
        compute_max_util := 9/10 }
    let s2 := computeMetrics s1
    some { s2 with int8_flops := some (s2.fp16_tensor_flops * 2) }

/-- `H100_PCIE.set_to_microbench` (`h100_pcie.py` lines 126-152): new
frequencies and utilizations, measured bandwidths (its `smem_bandwidth`
write is then overwritten by `compute_metrics`), then `compute_metrics()`
and the `int8_flops` update. -/
def h100_pcie_set_to_microbench (s : ArchState) : Option ArchState :=
  let s1 : ArchState :=
    { s with
      base_freq := some 1420000000
      max_freq := some 1420000000
      freq := 1420000000
      ddr_max_util := 1
      l2_max_util := 1
      l1_max_util := 1
      compute_max_util := 1
      ddr_bandwidth := 1864220000000
      l2_bandwidth := 7598480000000
      smem_bandwidth := 20720600000000 }
  let s2 := computeMetrics s1
  some { s2 with int8_flops := some (s2.fp16_tensor_flops * 2) }

/-- `H100_PCIE.set_to_ncu` (`h100_pcie.py` lines 154-171). -/
def h100_pcie_set_to_ncu (s : ArchState) : Option ArchState :=
  let s1 : ArchState :=
    { s with
      base_freq := some 1060000000
      max_freq := some 1060000000
      freq := 1060000000
      ddr_max_util := 9/10
      l2_max_util := 9/10
      l1_max_util := 9/10
      compute_max_util := 9/10 }
  let s2 := computeMetrics s1
  some { s2 with int8_flops := some (s2.fp16_tensor_flops * 2) }

/-- `H100_SXM.set_to_spec` (`h100_sxm.py` lines 11-78). -/
def h100_sxm_set_to_spec (s : ArchState) : Option ArchState :=
  let s1 : ArchState :=
    { s with
      core := some "H100_SXM"
      sm_count := 132
      freq := 1830000000
      ddr_bandwidth := 3352320000000
      ddr_capacity := 90 * 1024 ^ 3
      l2_bandwidth := 8748000000000
      l2_capacity := 50 * 1024 ^ 2
      l2_partitions := 2
      sm_sub_partitions := 4
      l1_smem_throughput_per_cycle := 128
      configurable_smem_capacity := 228 * 1024
      register_capacity_per_sm := 256 * 1024
      fp16_tensor_core_unit := some ⟨"tensor", "fp16", 4, [8, 4, 16], 2⟩
      fp8_tensor_core_unit := some ⟨"tensor", "fp8", 4, [8, 4, 32], 2⟩
      fp32_cuda_core_unit := some ⟨"vector", "fp32", 128, [1], 2⟩
      fp16_cuda_core_unit := some ⟨"vector", "fp16", 128, [1], 2⟩
      fp64_cuda_core_unit := some ⟨"vector", "fp64", 64, [1], 2⟩
      sfu_unit := some ⟨"vector", "fp32", 16, [1], 2⟩
      ddr_max_util := 9/10
      l2_max_util := 9/10
      l1_max_util := 9/10
      compute_max_util := 9/10 }
  some (computeMetrics s1)

/-- `H100_SXM.set_to_microbench` (`h100_sxm.py` lines 80-84): a bare
`return self` ("Not tested yet"). -/
def h100_sxm_set_to_microbench (s : ArchState) : Option ArchState :=
  some s

/-- `H100_SXM.set_to_ncu` (`h100_sxm.py` lines 86-100). -/
def h100_sxm_set_to_ncu (s : ArchState) : Option ArchState :=
  let s1 : ArchState :=
    { s with
      freq := 1440000000
      ddr_max_util := 9/10
      l2_max_util := 9/10
      l1_max_util := 9/10
      compute_max_util := 9/10 }
  some (computeMetrics s1)

/-- `MI250X.set_to_spec` (`mi250x.py` lines 11-73). -/
def mi250x_set_to_spec (s : ArchState) : Option ArchState :=
  let s1 : ArchState :=
    { s with
      core := some "MI250X"
      sm_count := 110
      freq := 2100000000
      ddr_bandwidth := 1600000000000
      ddr_capacity := 64 * 1024 ^ 3
      l2_bandwidth := 3200000000000
      l2_capacity := 8 * 1024 ^ 2
      l2_partitions := 1
      sm_sub_partitions := 4
      l1_smem_throughput_per_cycle := 128
      configurable_smem_capacity := 164 * 1024
      register_capacity_per_sm := 256 * 1024
      fp16_tensor_core_unit := some ⟨"tensor", "fp16", 4, [8, 4, 8], 2⟩
      fp32_cuda_core_unit := some ⟨"vector", "fp32", 64, [1], 2⟩
      fp16_cuda_core_unit := some ⟨"vector", "fp16", 64, [1], 2⟩
      fp64_cuda_core_unit := some ⟨"vector", "fp64", 32, [1], 2⟩
      sfu_unit := some ⟨"vector", "fp32", 16, [1], 2⟩
      ddr_max_util := 9/10
      l2_max_util := 9/10
      l1_max_util := 9/10
      compute_max_util := 9/10 }
  some (computeMetrics s1)

/-- `MI250X.set_to_microbench` (`mi250x.py` lines 75-96): overwrites the
frequency, utilizations, measured bandwidths and three measured flops
fields directly and returns WITHOUT calling `compute_metrics`. -/
def mi250x_set_to_microbench (s : ArchState) : Option ArchState :=
  some
    { s with
      freq := 1360000000
      ddr_max_util := 1
      l2_max_util := 1
      l1_max_util := 1
      compute_max_util := 1
      ddr_bandwidth := 1654810000000
      l2_bandwidth := 3234770000000
      smem_bandwidth := 19491000000000
      fp32_cuda_core_flops := 19017181000000
      fp16_cuda_core_flops := 19017181000000
      fp16_tensor_flops := 298951000000000 }

/-- `MI250X.set_to_ncu` (`mi250x.py` lines 98-112). -/
def mi250x_set_to_ncu (s : ArchState) : Option ArchState :=
  let s1 : ArchState :=
    { s with
      freq := 1060000000
      ddr_max_util := 9/10
      l2_max_util := 9/10
      l1_max_util := 9/10
      compute_max_util := 9/10 }
  some (computeMetrics s1)

/-- Modelled from the spec: `arch/cuda/h100_nvl.py` is not under `src/`
(only `DEVICE_ARCH_MAP` references it).  Per spec section 4.3 its
`set_to_spec` populates the vendor table and ends with
`compute_metrics`; the numeric table itself is out-of-scope data. -/
def h100_nvl_set_to_spec (s : ArchState) : Option ArchState :=
  some (computeMetrics { s with core := some "H100_NVL" })

/-- Modelled from the spec: `h100_nvl.py` is not under `src/`; section
4.3 permits microbench/ncu overrides to be no-ops for devices without
measured data. -/
def h100_nvl_set_to_other (s : ArchState) : Option ArchState :=
  some s

/-- Modelled from the spec: `arch/cuda/a100_sxm.py` is not under `src/`
(only `DEVICE_ARCH_MAP` references it).  Per spec section 4.3 its
`set_to_spec` populates the vendor table and ends with
`compute_metrics`. -/
def a100_sxm_set_to_spec (s : ArchState) : Option ArchState :=
  some (computeMetrics { s with core := some "A100_SXM" })

/-- Modelled from the spec: `a100_sxm.py` is not under `src/`; section
4.3 permits microbench/ncu overrides to be no-ops for devices without
measured data. -/
def a100_sxm_set_to_other (s : ArchState) : Option ArchState :=
  some s

/-- The concrete `Arch` subclasses known to the repository (the keys of
`DEVICE_ARCH_MAP` in `utils/device_factory.py`). -/
inductive ArchVariant
  | H100_PCIE
  | H100_SXM
  | H100_NVL
  | A100_SXM
  | MI250X
deriving DecidableEq

/-- The three-mode configuration contract of `Arch`. -/
inductive ConfigMode
  | spec
  | microbench
  | ncu
deriving DecidableEq

/-- Dispatch of the configuration-mode methods per concrete variant. -/
def applyMode (v : ArchVariant) (m : ConfigMode) (s : ArchState) : Option ArchState :=
  match v, m with
  | .H100_PCIE, .spec => h100_pcie_set_to_spec s
  | .H100_PCIE, .microbench => h100_pcie_set_to_microbench s
  | .H100_PCIE, .ncu => h100_pcie_set_to_ncu s
  | .H100_SXM, .spec => h100_sxm_set_to_spec s
  | .H100_SXM, .microbench => h100_sxm_set_to_microbench s
  | .H100_SXM, .ncu => h100_sxm_set_to_ncu s
  | .H100_NVL, .spec => h100_nvl_set_to_spec s
  | .H100_NVL, .microbench => h100_nvl_set_to_other s
  | .H100_NVL, .ncu => h100_nvl_set_to_other s
  | .A100_SXM, .spec => a100_sxm_set_to_spec s
  | .A100_SXM, .microbench => a100_sxm_set_to_other s
  | .A100_SXM, .ncu => a100_sxm_set_to_other s
  | .MI250X, .spec => mi250x_set_to_spec s
  | .MI250X, .microbench => mi250x_set_to_microbench s
  | .MI250X, .ncu => mi250x_set_to_ncu s

/-- A variant constructor: `Arch.__init__` (the zeroed base state)
followed by `self.set_to_spec()`. -/
def construct (v : ArchVariant) : Option ArchState :=
  applyMode v .spec initState

/-- `DEVICE_ARCH_MAP` from `utils/device_factory.py` lines 23-35. -/
def DEVICE_ARCH_MAP : List (String × ArchVariant) :=
  [("NVIDIA H100 PCIe", .H100_PCIE),
   ("NVIDIA H100 80GB HBM3", .H100_SXM),
   ("NVIDIA H100 NVL", .H100_NVL),
   ("NVIDIA A100-SXM4-80GB", .A100_SXM),
   ("AMD INSTINCT MI250X", .MI250X)]

/-- `create_device_arch` (`device_factory.py` lines 38-66): dictionary
lookup, `ValueError` (here `Except.error`) with the descriptive message
on a miss, otherwise call the variant constructor (whose own raise, the
PCIe `AttributeError`, shows up as `Except.ok none`). -/
def createDeviceArch (device_name : String) : Except String (Option ArchState) :=
  match DEVICE_ARCH_MAP.lookup device_name with
  | none =>
    Except.error ("No hardware abstraction class found for device: " ++ device_name ++
      ". Please ensure the device name is correct and its corresponding " ++
      "Arch subclass is implemented and added to DEVICE_ARCH_MAP.")
  | some v => Except.ok (construct v)

/-- Equality of the ten derived-metric fields that `compute_metrics`
writes (one flops field per unit slot, shared-memory bandwidth,
register bandwidth). -/
def derivedFieldsEq (a b : ArchState) : Prop :=
  a.fp16_tensor_flops = b.fp16_tensor_flops ∧
  a.fp8_tensor_flops = b.fp8_tensor_flops ∧
  a.fp4_tensor_flops = b.fp4_tensor_flops ∧
  a.fp32_cuda_core_flops = b.fp32_cuda_core_flops ∧
  a.fp16_cuda_core_flops = b.fp16_cuda_core_flops ∧
  a.fp64_cuda_core_flops = b.fp64_cuda_core_flops ∧
  a.int32_cuda_core_flops = b.int32_cuda_core_flops ∧
  a.sfu_flops = b.sfu_flops ∧
  a.smem_bandwidth = b.smem_bandwidth ∧
  a.register_bandwidth = b.register_bandwidth

/-- The configuration scalars and unit slots that no variant's
`set_to_microbench` assigns: they must carry over from the
post-`set_to_spec` state `a` to the post-`set_to_microbench` state `b`. -/
def untouchedByMicrobench (a b : ArchState) : Prop :=
  b.core = a.core ∧
  b.sm_count = a.sm_count ∧
  b.ddr_capacity = a.ddr_capacity ∧
  b.l2_capacity = a.l2_capacity ∧
  b.l2_partitions = a.l2_partitions ∧
  b.sm_sub_partitions = a.sm_sub_partitions ∧
  b.l1_smem_throughput_per_cycle = a.l1_smem_throughput_per_cycle ∧
  b.configurable_smem_capacity = a.configurable_smem_capacity ∧
  b.register_capacity_per_sm = a.register_capacity_per_sm ∧
  b.warp_schedulers_per_sm = a.warp_schedulers_per_sm ∧
  b.fp16_tensor_core_unit = a.fp16_tensor_core_unit ∧
  b.fp8_tensor_core_unit = a.fp8_tensor_core_unit ∧
  b.fp4_tensor_core_unit = a.fp4_tensor_core_unit ∧
  b.fp32_cuda_core_unit = a.fp32_cuda_core_unit ∧
  b.fp16_cuda_core_unit = a.fp16_cuda_core_unit ∧
  b.fp64_cuda_core_unit = a.fp64_cuda_core_unit ∧
  b.int32_cuda_core_unit = a.int32_cuda_core_unit ∧
  b.sfu_unit = a.sfu_unit

/-- States an instance of a concrete variant can actually be in: the
state right after construction, and the successor of a reachable state
under any successful configuration-mode call. -/
inductive Reaches : ArchVariant → ArchState → Prop
  | constructed (v : ArchVariant) (s : ArchState) :
      construct v = some s → Reaches v s
  | step (v : ArchVariant) (m : ConfigMode) (s t : ArchState) :
      Reaches v s → applyMode v m s = some t → Reaches v t

/-- The MI250X state right after `MI250X()` (i.e. after `set_to_spec`). -/
def mi250xAfterSpec : ArchState := (construct .MI250X).getD initState

/-- The MI250X state after `MI250X()` then `set_to_microbench()`. -/
def mi250xAfterMicrobench : ArchState :=
  (mi250x_set_to_microbench mi250xAfterSpec).getD initState

/-- The H100_SXM state right after `H100_SXM()`. -/
def h100sxmAfterSpec : ArchState := (construct .H100_SXM).getD initState

theorem computeMetrics_idem (s : ArchState) :
    computeMetrics (computeMetrics s) = computeMetrics s := rfl

theorem computeMetrics_max_freq (s : ArchState) :
    (computeMetrics s).max_freq = s.max_freq := rfl

theorem derivedFieldsEq_refl (a : ArchState) : derivedFieldsEq a a :=
  ⟨rfl, rfl, rfl, rfl, rfl, rfl, rfl, rfl, rfl, rfl⟩

/-- A state produced by `compute_metrics` is a fixed point of
`compute_metrics` on the derived fields. -/
theorem derived_fixed_cm (s : ArchState) :
    derivedFieldsEq (computeMetrics s) (computeMetrics (computeMetrics s)) :=
  ⟨rfl, rfl, rfl, rfl, rfl, rfl, rfl, rfl, rfl, rfl⟩

/-- Same, after the trailing `int8_flops` assignment the H100_PCIE
methods perform (it is not an input of `compute_metrics`). -/
theorem derived_fixed_cm_int8 (s : ArchState) (x : Option ℚ) :
    derivedFieldsEq { computeMetrics s with int8_flops := x }
      (computeMetrics { computeMetrics s with int8_flops := x }) :=
  ⟨rfl, rfl, rfl, rfl, rfl, rfl, rfl, rfl, rfl, rfl⟩

/-- Every reachable state of a variant other than MI250X has derived
fields that `compute_metrics` would reproduce (MI250X breaks this after
`set_to_microbench`). -/
theorem reach_fixed (v : ArchVariant) (s : ArchState) (h : Reaches v s) :
    v ≠ .MI250X → derivedFieldsEq s (computeMetrics s) := by
  induction h with
  | constructed s hc =>
    intro hv
    cases v with
    | H100_PCIE =>
      simp [construct, applyMode, h100_pcie_set_to_spec, initState] at hc
    | H100_SXM =>
      simp only [construct, applyMode, h100_sxm_set_to_spec, Option.some.injEq] at hc
      subst hc; exact derived_fixed_cm _
    | H100_NVL =>
      simp only [construct, applyMode, h100_nvl_set_to_spec, Option.some.injEq] at hc
      subst hc; exact derived_fixed_cm _
    | A100_SXM =>
      simp only [construct, applyMode, a100_sxm_set_to_spec, Option.some.injEq] at hc
      subst hc; exact derived_fixed_cm _
    | MI250X => exact absurd rfl hv
  | step m s t hr ht ih =>
    intro hv
    cases v with
    | H100_PCIE =>
      cases m with
      | spec =>
        cases hmf : s.max_freq with
        | none => simp [applyMode, h100_pcie_set_to_spec, hmf] at ht
        | some mf =>
          simp only [applyMode, h100_pcie_set_to_spec, hmf, Option.some.injEq] at ht
          subst ht; exact derived_fixed_cm_int8 _ _
      | microbench =>
        simp only [applyMode, h100_pcie_set_to_microbench, Option.some.injEq] at ht
        subst ht; exact derived_fixed_cm_int8 _ _
      | ncu =>
        simp only [applyMode, h100_pcie_set_to_ncu, Option.some.injEq] at ht
        subst ht; exact derived_fixed_cm_int8 _ _
    | H100_SXM =>
      cases m with
      | spec =>
        simp only [applyMode, h100_sxm_set_to_spec, Option.some.injEq] at ht
        subst ht; exact derived_fixed_cm _
      | microbench =>
        simp only [applyMode, h100_sxm_set_to_microbench, Option.some.injEq] at ht
        subst ht; exact ih hv
      | ncu =>
        simp only [applyMode, h100_sxm_set_to_ncu, Option.some.injEq] at ht
        subst ht; exact derived_fixed_cm _
    | H100_NVL =>
      cases m with
      | spec =>
        simp only [applyMode, h100_nvl_set_to_spec, Option.some.injEq] at ht
        subst ht; exact derived_fixed_cm _
      | microbench =>
        simp only [applyMode, h100_nvl_set_to_other, Option.some.injEq] at ht
        subst ht; exact ih hv
      | ncu =>
        simp only [applyMode, h100_nvl_set_to_other, Option.some.injEq] at ht
        subst ht; exact ih hv
    | A100_SXM =>
      cases m with
      | spec =>
        simp only [applyMode, a100_sxm_set_to_spec, Option.some.injEq] at ht
        subst ht; exact derived_fixed_cm _
      | microbench =>
        simp only [applyMode, a100_sxm_set_to_other, Option.some.injEq] at ht
        subst ht; exact ih hv
      | ncu =>
        simp only [applyMode, a100_sxm_set_to_other, Option.some.injEq] at ht
        subst ht; exact ih hv
    | MI250X => exact absurd rfl hv

/-- C1: the claim says constructing any fresh variant and calling any
configuration-mode method on a freshly constructed all-zero instance
never fails, and in particular that `H100_PCIE()` constructs
successfully.  The code slips: `H100_PCIE.set_to_spec` reads the never-
initialized `max_freq` attribute, so `H100_PCIE()` raises
`AttributeError` (modelled as `none`), while the sibling methods and
variants do succeed. -/
theorem h100_pcie_fresh_construction_fails :
    construct .H100_PCIE = none ∧
    h100_pcie_set_to_spec initState = none ∧
    (h100_pcie_set_to_microbench initState).isSome = true ∧
    (h100_pcie_set_to_ncu initState).isSome = true ∧
    (construct .H100_SXM).isSome = true ∧
    (construct .MI250X).isSome = true :=
  ⟨rfl, rfl, rfl, rfl, rfl, rfl⟩

/-- C3: `calculate_flops` returns 0 when `sm_count ≤ 0` or
`freq_hz ≤ 0`, and otherwise
`instances * (product of shape, 1 for the empty shape) * ops_per_element
* sm_count * freq_hz`. -/
theorem calculate_flops_formula (u : ComputeUnit) (sm_count : Int) (freq_hz : ℚ) :
    u.calculate_flops sm_count freq_hz =
      if sm_count ≤ 0 ∨ freq_hz ≤ 0 then 0
      else ((u.instances * u.shape.prod * u.ops_per_element * sm_count : Int) : ℚ) * freq_hz := by
  rcases u with ⟨ut, dt, inst, shape, ops⟩
  cases shape <;> simp [ComputeUnit.calculate_flops]

/-- C4: under the construction invariant (`instances ≥ 1`,
`ops_per_element ≥ 1`, positive shape entries), `calculate_flops` is
non-negative, and zero exactly when `sm_count ≤ 0` or `freq_hz ≤ 0`. -/
theorem calculate_flops_sign (u : ComputeUnit) (sm_count : Int) (freq_hz : ℚ)
    (hinst : 1 ≤ u.instances) (hops : 1 ≤ u.ops_per_element)
    (hshape : ∀ x ∈ u.shape, 0 < x) :
    0 ≤ u.calculate_flops sm_count freq_hz ∧
      (u.calculate_flops sm_count freq_hz = 0 ↔ sm_count ≤ 0 ∨ freq_hz ≤ 0) := by
  unfold ComputeUnit.calculate_flops
  by_cases h : sm_count ≤ 0 ∨ freq_hz ≤ 0
  · simp [h]
  · have hc := h
    push_neg at h
    obtain ⟨h1, h2⟩ := h
    have hprod : 0 < (if u.shape.isEmpty then (1 : Int) else u.shape.prod) := by
      cases hs : u.shape with
      | nil => simp
      | cons a l =>
        simp only [List.isEmpty_cons, Bool.false_eq_true, if_false]
        exact List.prod_pos (fun x hx => hshape x (hs ▸ hx))
    have hpos :
        0 < ((u.instances * (if u.shape.isEmpty then (1 : Int) else u.shape.prod) *
            u.ops_per_element * sm_count : Int) : ℚ) * freq_hz := by
      have hint : (0 : Int) < u.instances * (if u.shape.isEmpty then (1 : Int) else u.shape.prod) *
          u.ops_per_element * sm_count :=
        mul_pos (mul_pos (mul_pos (lt_of_lt_of_le one_pos hinst) hprod)
          (lt_of_lt_of_le one_pos hops)) h1
      exact mul_pos (by exact_mod_cast hint) h2
    simp only [if_neg hc]
    refine ⟨le_of_lt hpos, ?_, ?_⟩
    · intro hz
      exact absurd hz (ne_of_gt hpos)
    · intro hco
      exact absurd hco hc

/-- Witness for C4 at the H100 fp16 tensor-core unit with the spec
SM count and frequency. -/
theorem calculate_flops_sign_witness :
    0 ≤ ComputeUnit.calculate_flops ⟨"tensor", "fp16", 4, [8, 4, 16], 2⟩ 114 1755000000 ∧
      (ComputeUnit.calculate_flops ⟨"tensor", "fp16", 4, [8, 4, 16], 2⟩ 114 1755000000 = 0 ↔
        (114 : Int) ≤ 0 ∨ (1755000000 : ℚ) ≤ 0) :=
  calculate_flops_sign ⟨"tensor", "fp16", 4, [8, 4, 16], 2⟩ 114 1755000000
    (by decide) (by decide) (by decide)

/-- C5: the memory-bandwidth pass sets `smem_bandwidth` to
`sm_count * freq * l1_smem_throughput_per_cycle` when all three factors
are positive and 0 otherwise, sets `register_bandwidth` to
`sm_count * freq * sm_sub_partitions * 32 * 4` under the analogous
guard, and leaves `ddr_bandwidth` and `l2_bandwidth` untouched. -/
theorem compute_bandwidth_formula (s : ArchState) :
    (computeBandwidth s).smem_bandwidth =
      (if 0 < s.sm_count ∧ 0 < s.freq ∧ 0 < s.l1_smem_throughput_per_cycle then
        (s.sm_count : ℚ) * s.freq * (s.l1_smem_throughput_per_cycle : ℚ) else 0) ∧
    (computeBandwidth s).register_bandwidth =
      (if 0 < s.sm_count ∧ 0 < s.freq ∧ 0 < s.sm_sub_partitions then
        (s.sm_count : ℚ) * s.freq * (s.sm_sub_partitions : ℚ) * 32 * 4 else 0) ∧
    (computeBandwidth s).ddr_bandwidth = s.ddr_bandwidth ∧
    (computeBandwidth s).l2_bandwidth = s.l2_bandwidth :=
  ⟨rfl, rfl, rfl, rfl⟩

/-- C6 counterexample: the claimed value 1,601,964,000,000.0 is not what
`calculate_flops` returns for `shape = []`, `instances = 4`,
`ops_per_element = 2`, `sm_count = 114`, `freq = 1.755e9`. -/
theorem calculate_flops_example_cex :
    ComputeUnit.calculate_flops ⟨"vector", "fp16", 4, [], 2⟩ 114 1755000000 ≠
      1601964000000 := by
  norm_num [ComputeUnit.calculate_flops]

/-- C6 amended: for that unit the result is exactly
`4 * 1 * 2 * 114 * 1.755e9 = 1,600,560,000,000.0` (the factors of the
claim multiply out to this value, not to 1,601,964,000,000.0). -/
theorem calculate_flops_example (ut dt : String) :
    ComputeUnit.calculate_flops ⟨ut, dt, 4, [], 2⟩ 114 1755000000 = 1600560000000 := by
  norm_num [ComputeUnit.calculate_flops]

/-- C10: `compute_metrics` changes only the ten derived-metric fields:
every configuration scalar, every unit slot, the utilization ceilings
and the H100-specific extra attributes are untouched, and the whole
computation is idempotent. -/
theorem compute_metrics_frame_and_idempotent (s : ArchState) :
    (computeMetrics s).core = s.core ∧
    (computeMetrics s).sm_count = s.sm_count ∧
    (computeMetrics s).freq = s.freq ∧
    (computeMetrics s).ddr_bandwidth = s.ddr_bandwidth ∧
    (computeMetrics s).ddr_capacity = s.ddr_capacity ∧
    (computeMetrics s).l2_bandwidth = s.l2_bandwidth ∧
    (computeMetrics s).l2_capacity = s.l2_capacity ∧
    (computeMetrics s).l2_partitions = s.l2_partitions ∧
    (computeMetrics s).sm_sub_partitions = s.sm_sub_partitions ∧
    (computeMetrics s).l1_smem_throughput_per_cycle = s.l1_smem_throughput_per_cycle ∧
    (computeMetrics s).configurable_smem_capacity = s.configurable_smem_capacity ∧
    (computeMetrics s).register_capacity_per_sm = s.register_capacity_per_sm ∧
    (computeMetrics s).fp16_tensor_core_unit = s.fp16_tensor_core_unit ∧
    (computeMetrics s).fp8_tensor_core_unit = s.fp8_tensor_core_unit ∧
    (computeMetrics s).fp4_tensor_core_unit = s.fp4_tensor_core_unit ∧
    (computeMetrics s).fp32_cuda_core_unit = s.fp32_cuda_core_unit ∧
    (computeMetrics s).fp16_cuda_core_unit = s.fp16_cuda_core_unit ∧
    (computeMetrics s).fp64_cuda_core_unit = s.fp64_cuda_core_unit ∧
    (computeMetrics s).int32_cuda_core_unit = s.int32_cuda_core_unit ∧
    (computeMetrics s).sfu_unit = s.sfu_unit ∧
    (computeMetrics s).ddr_max_util = s.ddr_max_util ∧
    (computeMetrics s).l2_max_util = s.l2_max_util ∧
    (computeMetrics s).l1_max_util = s.l1_max_util ∧
    (computeMetrics s).compute_max_util = s.compute_max_util ∧
    (computeMetrics s).base_freq = s.base_freq ∧
    (computeMetrics s).max_freq = s.max_freq ∧
    (computeMetrics s).warp_schedulers_per_sm = s.warp_schedulers_per_sm ∧
    (computeMetrics s).int8_flops = s.int8_flops ∧
    computeMetrics (computeMetrics s) = computeMetrics s :=
  ⟨rfl, rfl, rfl, rfl, rfl, rfl, rfl, rfl, rfl, rfl, rfl, rfl, rfl, rfl, rfl, rfl, rfl, rfl,
    rfl, rfl, rfl, rfl, rfl, rfl, rfl, rfl, rfl, rfl, computeMetrics_idem s⟩

/-- C7: invoking the same configuration-mode method twice in a row
produces exactly the state the first invocation produced (so in
particular all derived-metric fields are identical; a failing first
call yields no instance, and then there is nothing to invoke again,
which the `bind` formulation absorbs). -/
theorem config_mode_idempotent (v : ArchVariant) (m : ConfigMode) (s : ArchState) :
    (applyMode v m s).bind (applyMode v m) = applyMode v m s := by
  cases v <;> cases m <;>
    first
      | rfl
      | (cases h : s.max_freq with
          | none => simp [applyMode, h100_pcie_set_to_spec, h]
          | some mf =>
            simp only [applyMode, h100_pcie_set_to_spec, h, Option.bind_some,
              computeMetrics_max_freq]
            rfl)

/-- C8: after `set_to_spec()` then `set_to_microbench()`, every
configuration scalar and every unit slot that the microbench override
does not assign still holds its post-`set_to_spec` value, for every
variant. -/
theorem microbench_preserves_untouched_fields (v : ArchVariant) (s s1 s2 : ArchState)
    (hs : applyMode v .spec s = some s1)
    (hm : applyMode v .microbench s1 = some s2) :
    untouchedByMicrobench s1 s2 := by
  cases v with
  | H100_PCIE =>
    cases h : s.max_freq with
    | none => simp [applyMode, h100_pcie_set_to_spec, h] at hs
    | some mf =>
      simp only [applyMode, h100_pcie_set_to_spec, h] at hs
      injection hs with hs
      subst hs
      simp only [applyMode, h100_pcie_set_to_microbench] at hm
      injection hm with hm
      subst hm
      exact ⟨rfl, rfl, rfl, rfl, rfl, rfl, rfl, rfl, rfl, rfl, rfl, rfl, rfl, rfl, rfl, rfl,
        rfl, rfl⟩
  | H100_SXM =>
    injection hs with hs
    subst hs
    injection hm with hm
    subst hm
    exact ⟨rfl, rfl, rfl, rfl, rfl, rfl, rfl, rfl, rfl, rfl, rfl, rfl, rfl, rfl, rfl, rfl,
      rfl, rfl⟩
  | H100_NVL =>
    injection hs with hs
    subst hs
    injection hm with hm
    subst hm
    exact ⟨rfl, rfl, rfl, rfl, rfl, rfl, rfl, rfl, rfl, rfl, rfl, rfl, rfl, rfl, rfl, rfl,
      rfl, rfl⟩
  | A100_SXM =>
    injection hs with hs
    subst hs
    injection hm with hm
    subst hm
    exact ⟨rfl, rfl, rfl, rfl, rfl, rfl, rfl, rfl, rfl, rfl, rfl, rfl, rfl, rfl, rfl, rfl,
      rfl, rfl⟩
  | MI250X =>
    injection hs with hs
    subst hs
    injection hm with hm
    subst hm
    exact ⟨rfl, rfl, rfl, rfl, rfl, rfl, rfl, rfl, rfl, rfl, rfl, rfl, rfl, rfl, rfl, rfl,
      rfl, rfl⟩

/-- Witness for C8 on the MI250X run `MI250X()` then
`set_to_microbench()`. -/
theorem microbench_preserves_untouched_fields_witness :
    untouchedByMicrobench mi250xAfterSpec mi250xAfterMicrobench :=
  microbench_preserves_untouched_fields .MI250X initState mi250xAfterSpec
    mi250xAfterMicrobench rfl rfl

/-- C2 counterexample: after `MI250X(); set_to_microbench()`, the
`sfu_flops` field still holds the value computed from the spec-mode
frequency 2.1 GHz (16 * 1 * 2 * 110 * 2.1e9 = 7.392e12), while
`compute_metrics` on the current state (frequency 1.36 GHz) would give
4.7872e12 — `MI250X.set_to_microbench` returns without rerunning the
passes, so a derived field does retain a prior mode value. -/
theorem mi250x_microbench_stale_sfu_flops :
    construct .MI250X = some mi250xAfterSpec ∧
    mi250x_set_to_microbench mi250xAfterSpec = some mi250xAfterMicrobench ∧
    mi250xAfterMicrobench.sfu_flops = 7392000000000 ∧
    (computeMetrics mi250xAfterMicrobench).sfu_flops = 4787200000000 ∧
    mi250xAfterMicrobench.sfu_flops ≠ (computeMetrics mi250xAfterMicrobench).sfu_flops := by
  refine ⟨rfl, rfl, ?_, ?_, ?_⟩ <;>
    norm_num [mi250xAfterMicrobench, mi250xAfterSpec, construct, applyMode,
      mi250x_set_to_microbench, mi250x_set_to_spec, computeMetrics, computeFlops,
      computeBandwidth, slotFlops, ComputeUnit.calculate_flops, initState]

/-- C2 amended: for every variant and configuration mode EXCEPT
`MI250X.set_to_microbench`, a mode method invoked on any reachable
instance leaves every derived-metric field equal to what
`compute_metrics` would compute from the state the method leaves
behind; `MI250X.set_to_microbench` instead overwrites
`fp16_tensor_flops`, `fp32_cuda_core_flops`, `fp16_cuda_core_flops` and
`smem_bandwidth` with measured constants without rerunning the passes,
so its remaining derived fields keep prior-mode values. -/
theorem mode_methods_recompute_derived_metrics (v : ArchVariant) (m : ConfigMode)
    (s t : ArchState) (hr : Reaches v s)
    (hx : ¬(v = .MI250X ∧ m = .microbench))
    (ht : applyMode v m s = some t) :
    derivedFieldsEq t (computeMetrics t) := by
  cases v with
  | H100_PCIE =>
    cases m with
    | spec =>
      cases hmf : s.max_freq with
      | none => simp [applyMode, h100_pcie_set_to_spec, hmf] at ht
      | some mf =>
        simp only [applyMode, h100_pcie_set_to_spec, hmf, Option.some.injEq] at ht
        subst ht; exact derived_fixed_cm_int8 _ _
    | microbench =>
      simp only [applyMode, h100_pcie_set_to_microbench, Option.some.injEq] at ht
      subst ht; exact derived_fixed_cm_int8 _ _
    | ncu =>
      simp only [applyMode, h100_pcie_set_to_ncu, Option.some.injEq] at ht
      subst ht; exact derived_fixed_cm_int8 _ _
  | H100_SXM =>
    cases m with
    | spec =>
      simp only [applyMode, h100_sxm_set_to_spec, Option.some.injEq] at ht
      subst ht; exact derived_fixed_cm _
    | microbench =>
      simp only [applyMode, h100_sxm_set_to_microbench, Option.some.injEq] at ht
      subst ht; exact reach_fixed _ _ hr (by simp)
    | ncu =>
      simp only [applyMode, h100_sxm_set_to_ncu, Option.some.injEq] at ht
      subst ht; exact derived_fixed_cm _
  | H100_NVL =>
    cases m with
    | spec =>
      simp only [applyMode, h100_nvl_set_to_spec, Option.some.injEq] at ht
      subst ht; exact derived_fixed_cm _
    | microbench =>
      simp only [applyMode, h100_nvl_set_to_other, Option.some.injEq] at ht
      subst ht; exact reach_fixed _ _ hr (by simp)
    | ncu =>
      simp only [applyMode, h100_nvl_set_to_other, Option.some.injEq] at ht
      subst ht; exact reach_fixed _ _ hr (by simp)
  | A100_SXM =>
    cases m with
    | spec =>
      simp only [applyMode, a100_sxm_set_to_spec, Option.some.injEq] at ht
      subst ht; exact derived_fixed_cm _
    | microbench =>
      simp only [applyMode, a100_sxm_set_to_other, Option.some.injEq] at ht
      subst ht; exact reach_fixed _ _ hr (by simp)
    | ncu =>
      simp only [applyMode, a100_sxm_set_to_other, Option.some.injEq] at ht
      subst ht; exact reach_fixed _ _ hr (by simp)
  | MI250X =>
    cases m with
    | spec =>
      simp only [applyMode, mi250x_set_to_spec, Option.some.injEq] at ht
      subst ht; exact derived_fixed_cm _
    | microbench => exact absurd ⟨rfl, rfl⟩ hx
    | ncu =>
      simp only [applyMode, mi250x_set_to_ncu, Option.some.injEq] at ht
      subst ht; exact derived_fixed_cm _

/-- Witness for C2 on the no-op `H100_SXM.set_to_microbench` invoked on
the freshly constructed H100_SXM instance. -/
theorem mode_methods_recompute_derived_metrics_witness :
    derivedFieldsEq h100sxmAfterSpec (computeMetrics h100sxmAfterSpec) :=
  mode_methods_recompute_derived_metrics .H100_SXM .microbench h100sxmAfterSpec
    h100sxmAfterSpec (Reaches.constructed .H100_SXM h100sxmAfterSpec rfl)
    (by decide) rfl

/-- C9: looking up an unmapped device name yields the descriptive
"no hardware abstraction" `ValueError`; a mapped name calls the
corresponding constructor — but for "NVIDIA H100 PCIe" that terminal
constructor call itself raises (`Except.ok none`) instead of returning
an instance, contradicting the claim, while e.g. the MI250X and
H100_SXM names do produce freshly constructed instances. -/
theorem create_device_arch_eval :
    createDeviceArch "NVIDIA GeForce RTX 4090" =
      Except.error ("No hardware abstraction class found for device: NVIDIA GeForce RTX 4090" ++
        ". Please ensure the device name is correct and its corresponding " ++
        "Arch subclass is implemented and added to DEVICE_ARCH_MAP.") ∧
    createDeviceArch "NVIDIA H100 PCIe" = Except.ok none ∧
    createDeviceArch "AMD INSTINCT MI250X" = Except.ok (some mi250xAfterSpec) ∧
    createDeviceArch "NVIDIA H100 80GB HBM3" = Except.ok (some h100sxmAfterSpec) := by
  refine ⟨?_, ?_, ?_, ?_⟩ <;> rfl
